import Mathlib

/-!
Verification development for the yamp repository (marcelhaerle/yamp):
a shallow embedding of `app/core/config.py` and `app/core/prometheus.py`
in Lean 4, with theorems settling the specification claims.

JSON values are modelled by the inductive `Json`; Python numbers (int and
float alike) are modelled by `Rat`.  Python exceptions that the embedded
code can raise or catch are modelled by `PyErr`; fallible code returns
`Except`.
-/

namespace Yamp

/-- JSON values as produced by `response.json()` / `yaml.safe_load`.
Python numbers (int/float) are modelled by `Rat`; object fields keep
insertion order, mirroring Python dict ordering. -/
inductive Json where
  | null : Json
  | bool (b : Bool) : Json
  | num (q : Rat) : Json
  | str (s : String) : Json
  | arr (xs : List Json) : Json
  | obj (fields : List (String × Json)) : Json

/-- The Python exception kinds the embedded code can raise or catch. -/
inductive PyErr where
  | valueError (msg : String)
  | indexError (msg : String)
  | typeError (msg : String)
  | keyError (key : String)
  | attributeError (msg : String)
  | runtimeError (msg : String)
deriving DecidableEq

/-- Key lookup in a JSON object, first occurrence (JSON-parsed dicts have
unique keys, so first = last = the value). -/
def lookupField (fields : List (String × Json)) (k : String) : Option Json :=
  (fields.find? (fun p => p.1 = k)).map (fun p => p.2)

/-- `x.get(k, default)` — dict lookup with default; on a non-dict, `.get`
raises `AttributeError` (lists/ints/strings have no `get`). -/
def pyGet (j : Json) (k : String) (default : Json) : Except PyErr Json :=
  match j with
  | .obj fields => .ok ((lookupField fields k).getD default)
  | _ => .error (.attributeError "get")

/-- `x[i]` for a nonnegative integer index `i`: list/str indexing with
`IndexError` out of range, dict lookup by an int key raises `KeyError`
(JSON dict keys are strings), other values raise `TypeError`. -/
def pyIndexNat (j : Json) (i : Nat) : Except PyErr Json :=
  match j with
  | .arr xs =>
    match xs.get? i with
    | some v => .ok v
    | none => .error (.indexError "list index out of range")
  | .str s =>
    match s.data.get? i with
    | some c => .ok (.str (String.mk [c]))
    | none => .error (.indexError "string index out of range")
  | .obj _ => .error (.keyError (toString i))
  | _ => .error (.typeError "object is not subscriptable")

/-- `d[k]` for a string key: `KeyError` when absent; `TypeError` on
non-dict values. -/
def pySubscrStr (j : Json) (k : String) : Except PyErr Json :=
  match j with
  | .obj fields =>
    match lookupField fields k with
    | some v => .ok v
    | none => .error (.keyError k)
  | _ => .error (.typeError "indices must be integers")

def natOfDigits (cs : List Char) : Nat :=
  cs.foldl (fun n c => n * 10 + (c.toNat - 48)) 0

def isSpaceChar (c : Char) : Bool :=
  c = ' ' || c = '\t' || c = '\n' || c = '\r'

def trimChars (cs : List Char) : List Char :=
  ((cs.dropWhile isSpaceChar).reverse.dropWhile isSpaceChar).reverse

/-- Model of Python `float(string)` acceptance, restricted to plain decimal
notation `[+-]?digits[.digits]` (also `1.` and `.5`), with surrounding
whitespace stripped.  Exponent, `inf`/`nan` and underscore forms are not
modelled (no claim exercises them); on those the model yields `none`
(`ValueError`), like any other unparseable string. -/
def parseDecimal (s : String) : Option Rat :=
  let cs0 := trimChars s.data
  let sgn : Int := match cs0 with
    | '-' :: _ => -1
    | _ => 1
  let cs : List Char := match cs0 with
    | '+' :: r => r
    | '-' :: r => r
    | _ => cs0
  let ip := cs.takeWhile Char.isDigit
  let rest := cs.dropWhile Char.isDigit
  match rest with
  | [] =>
    if ip.isEmpty then none
    else some (mkRat (sgn * (natOfDigits ip : Int)) 1)
  | '.' :: fp =>
    if fp.all Char.isDigit && (!ip.isEmpty || !fp.isEmpty) then
      some (mkRat (sgn * ((natOfDigits ip * 10 ^ fp.length + natOfDigits fp : Nat) : Int))
        (10 ^ fp.length))
    else none
  | _ => none

/-- `float(x)`: numbers pass through, booleans coerce (True = 1.0),
strings are parsed (`ValueError` on failure), everything else raises
`TypeError`. -/
def pyFloat (j : Json) : Except PyErr Rat :=
  match j with
  | .num q => .ok q
  | .bool b => .ok (if b then mkRat 1 1 else mkRat 0 1)
  | .str s =>
    match parseDecimal s with
    | some q => .ok q
    | none => .error (.valueError "could not convert string to float")
  | _ => .error (.typeError "float() argument")

/-- Integers render without a fraction; non-integral numbers are rendered
in rational notation (a model approximation of Python float rendering —
no claim exercises it). -/
def numRepr (q : Rat) : String :=
  if q.den = 1 then toString q.num else toString q

mutual

/-- Model of Python `repr` on JSON-derived values (string escaping inside
quotes is not modelled). -/
def pyRepr : Json → String
  | .null => "None"
  | .bool true => "True"
  | .bool false => "False"
  | .num q => numRepr q
  | .str s => "\x27" ++ s ++ "\x27"
  | .arr xs => "[" ++ pyReprList xs ++ "]"
  | .obj fs => "\x7b" ++ pyReprObj fs ++ "\x7d"

def pyReprList : List Json → String
  | [] => ""
  | [x] => pyRepr x
  | x :: y :: xs => pyRepr x ++ ", " ++ pyReprList (y :: xs)

def pyReprObj : List (String × Json) → String
  | [] => ""
  | [(k, v)] => "\x27" ++ k ++ "\x27: " ++ pyRepr v
  | (k, v) :: p :: ps => "\x27" ++ k ++ "\x27: " ++ pyRepr v ++ ", " ++ pyReprObj (p :: ps)

end

/-- Model of Python `str(x)` as used inside an f-string: strings pass
through unquoted, everything else uses `repr`. -/
def pyStr (j : Json) : String :=
  match j with
  | .str s => s
  | j => pyRepr j

/-! ## `app/core/prometheus.py` -/

/-- The state of an `httpx.AsyncClient`: open or closed (`aclose` was
called).  Models httpx: sending a request on a closed client raises
`RuntimeError`. -/
structure HttpxClient where
  is_closed : Bool
deriving DecidableEq

/-- `PrometheusClient.__init__`: strips trailing slashes from the base
URL and builds the query endpoint; `_client` starts as `None`. -/
structure PrometheusClient where
  base_url : String
  query_url : String
  _client : Option HttpxClient

/-- `str(base_url).rstrip("/")`. -/
def rstripSlash (s : String) : String :=
  String.mk (s.toList.reverse.dropWhile (fun c => c = '/')).reverse

def PrometheusClient.make (base_url : String) : PrometheusClient :=
  let b := rstripSlash base_url
  { base_url := b, query_url := b ++ "/api/v1/query", _client := none }

/-- `__aenter__`: initializes the HTTP client. -/
def PrometheusClient.aenter (c : PrometheusClient) : PrometheusClient :=
  { c with _client := some { is_closed := false } }

/-- `__aexit__`: `if self._client: await self._client.aclose()` — closes
the HTTP client when present, but leaves `self._client` assigned. -/
def PrometheusClient.aexit (c : PrometheusClient) : PrometheusClient :=
  match c._client with
  | some hc => { c with _client := some { hc with is_closed := true } }
  | none => c

/-- What the transport does for one GET: either an `httpx.RequestError`
(connection refused, DNS failure, timeout) or an HTTP response with a
status code and a JSON body. -/
inductive NetResult where
  | requestError (msg : String)
  | response (status : Nat) (body : Json)

/-- The outcomes of `fetch_metric` other than success: the four
`PrometheusClientError` messages raised by the source, plus any Python
exception that escapes unwrapped. -/
inductive FetchError where
  | clientNotInit
  | connectionError (cause : String)
  | httpStatusError (status : Nat)
  | apiError (msg : String)
  | py (e : PyErr)
deriving DecidableEq

/-- The `PrometheusClientError` message of each wrapped failure, exactly
as the source formats it (`py` failures escape with no such message). -/
def FetchError.message : FetchError → String
  | .clientNotInit => "Client not initialized. Use \x27async with\x27"
  | .connectionError cause => "Connection to Prometheus failed: " ++ cause
  | .httpStatusError status => "Prometheus returned status " ++ toString status
  | .apiError msg => "Prometheus API error: " ++ msg
  | .py _ => ""

/-- One loop iteration of `_transform_data`, including its
`try/except (ValueError, IndexError)`: `.ok (some r)` appends `r`,
`.ok none` is a caught-and-logged skip, `.error e` is an uncaught
exception aborting the whole call. -/
def transformItem (item : Json) : Except PyErr (Option (Json × Rat)) :=
  let attempt : Except PyErr (Json × Rat) :=
    match pyGet item "value" (Json.arr [Json.num 0, Json.str "0"]) with
    | .error e => .error e
    | .ok v =>
      match pyIndexNat v 1 with
      | .error e => .error e
      | .ok x =>
        match pyFloat x with
        | .error e => .error e
        | .ok f =>
          match pyGet item "metric" (Json.obj []) with
          | .error e => .error e
          | .ok m => .ok (m, f)
  match attempt with
  | .ok r => .ok (some r)
  | .error (.valueError _) => .ok none
  | .error (.indexError _) => .ok none
  | .error e => .error e

/-- The `for item in ...` loop of `_transform_data`. -/
def transformList : List Json → Except PyErr (List (Json × Rat))
  | [] => .ok []
  | item :: rest =>
    match transformItem item with
    | .error e => .error e
    | .ok o =>
      match transformList rest with
      | .error e => .error e
      | .ok tail =>
        .ok (match o with
          | some r => r :: tail
          | none => tail)

/-- `for x in j`: lists yield elements, strings yield one-character
strings, dicts yield their keys; other values raise `TypeError`. -/
def pyIter (j : Json) : Except PyErr (List Json) :=
  match j with
  | .arr xs => .ok xs
  | .str s => .ok (s.toList.map (fun c => Json.str (String.mk [c])))
  | .obj fs => .ok (fs.map (fun p => Json.str p.1))
  | _ => .error (.typeError "object is not iterable")

/-- `_transform_data`: iterates `raw_data.get("data", {}).get("result", [])`
and collects the simplified entries. -/
def transform_data (raw_data : Json) : Except PyErr (List (Json × Rat)) :=
  match pyGet raw_data "data" (Json.obj []) with
  | .error e => .error e
  | .ok d =>
    match pyGet d "result" (Json.arr []) with
    | .error e => .error e
    | .ok r =>
      match pyIter r with
      | .error e => .error e
      | .ok items => transformList items

/-- Python `data["status"] != "success"`: true for every value other than
the string literal `"success"`. -/
def statusNotSuccess (j : Json) : Bool :=
  match j with
  | .str s => s ≠ "success"
  | _ => true

/-- `fetch_metric`: the network interaction is abstracted by the `net`
argument, a function from the request's query parameter to what the
transport would do for that GET; an Unbound client never reaches it
(models that no network call is issued).  The `try` block catches only
`httpx.RequestError` and `httpx.HTTPStatusError`; the
`PrometheusClientError` raised for a non-success status and any other
Python exception propagate as raised. -/
def fetch_metric (c : PrometheusClient) (query : String) (net : String → NetResult) :
    Except FetchError (List (Json × Rat)) :=
  match c._client with
  | none => .error .clientNotInit
  | some hc =>
    if hc.is_closed then
      .error (.py (.runtimeError "Cannot send a request, as the client has been closed."))
    else
      match net query with
      | .requestError m => .error (.connectionError m)
      | .response status body =>
        if status < 200 ∨ 300 ≤ status then
          .error (.httpStatusError status)
        else
          match pySubscrStr body "status" with
          | .error e => .error (.py e)
          | .ok st =>
            if statusNotSuccess st then
              match pyGet body "error" (Json.str "Unknown Prometheus API error") with
              | .ok em => .error (.apiError (pyStr em))
              | .error e => .error (.py e)
            else
              match transform_data body with
              | .ok l => .ok l
              | .error e => .error (.py e)

/-! ## `app/core/config.py` -/

inductive AlertPriority where
  | LOW
  | NORMAL
  | HIGH
deriving DecidableEq

structure AlertConfig where
  threshold : Rat
  duration : String
  priority : AlertPriority
deriving DecidableEq

structure Metric where
  title : String
  query : String
  unit : String
  alert : Option AlertConfig
deriving DecidableEq

structure Dashboard where
  name : String
  refresh_interval : Int
  metrics : List Metric
deriving DecidableEq

structure YampConfig where
  prometheus_url : String
  pushover_token : String
  pushover_user : String
  dashboards : List Dashboard
deriving DecidableEq

def strStartsWith (s p : String) : Bool :=
  decide (s.data.take p.data.length = p.data)

/-- Model of pydantic `HttpUrl` well-formedness: an absolute URL with an
http or https scheme and a nonempty remainder (host).  Finer URL syntax
checks are not modelled; claims use this only as the well-formedness
flag. -/
def isValidHttpUrl (s : String) : Bool :=
  (strStartsWith s "http://" && decide (7 < s.data.length)) ||
    (strStartsWith s "https://" && decide (8 < s.data.length))

/-- Validation errors are collected as the list of offending field
locations, mirroring pydantic's enumeration of every invalid field. -/
def accumE (a : Except (List String) α) (b : Except (List String) β) :
    Except (List String) (α × β) :=
  match a, b with
  | .ok x, .ok y => .ok (x, y)
  | .error e, .ok _ => .error e
  | .ok _, .error f => .error f
  | .error e, .error f => .error (e ++ f)

/-- A required `str` field: missing or non-string input is an error at
the given location (pydantic v2 does not coerce numbers to `str`). -/
def vRequiredStr (loc : String) : Option Json → Except (List String) String
  | some (.str s) => .ok s
  | _ => .error [loc]

/-- The required `HttpUrl` field. -/
def vUrl (loc : String) : Option Json → Except (List String) String
  | some (.str s) => if isValidHttpUrl s then .ok s else .error [loc]
  | _ => .error [loc]

/-- Model of pydantic lax `int` coercion: ints, integral floats and
integer strings. -/
def parseIntJson (j : Json) : Option Int :=
  match j with
  | .num q => if q.den = 1 then some q.num else none
  | .str s => (parseDecimal s).bind (fun q => if q.den = 1 then some q.num else none)
  | _ => none

/-- Model of pydantic lax `float` coercion: numbers and numeric strings
(booleans are rejected for numeric fields in pydantic v2). -/
def vFloat (loc : String) (j : Json) : Except (List String) Rat :=
  match j with
  | .num q => .ok q
  | .str s =>
    match parseDecimal s with
    | some q => .ok q
    | none => .error [loc]
  | _ => .error [loc]

/-- `priority: AlertPriority` (an `IntEnum`): accepts the values 0, 1, 2
(model: numeric input only). -/
def vPriority (loc : String) (j : Json) : Except (List String) AlertPriority :=
  match parseIntJson j with
  | some 0 => .ok .LOW
  | some 1 => .ok .NORMAL
  | some 2 => .ok .HIGH
  | _ => .error [loc]

/-- `AlertConfig`: required `threshold`, `duration` defaulting to `"5m"`,
`priority` defaulting to `NORMAL` (nested models ignore extra keys —
pydantic `BaseModel` default). -/
def vAlertConfig (loc : String) (j : Json) : Except (List String) AlertConfig :=
  match j with
  | .obj fs =>
    let thr := match lookupField fs "threshold" with
      | some v => vFloat (loc ++ ".threshold") v
      | none => .error [loc ++ ".threshold"]
    let dur : Except (List String) String := match lookupField fs "duration" with
      | none => .ok "5m"
      | some (.str s) => .ok s
      | some _ => .error [loc ++ ".duration"]
    let pri := match lookupField fs "priority" with
      | none => .ok .NORMAL
      | some v => vPriority (loc ++ ".priority") v
    match accumE thr (accumE dur pri) with
    | .ok (t, d, p) => .ok ⟨t, d, p⟩
    | .error e => .error e
  | _ => .error [loc]

/-- `Metric`: required `title` and `query`, `unit` defaulting to `""`,
optional `alert`. -/
def vMetric (loc : String) (j : Json) : Except (List String) Metric :=
  match j with
  | .obj fs =>
    let t := vRequiredStr (loc ++ ".title") (lookupField fs "title")
    let q := vRequiredStr (loc ++ ".query") (lookupField fs "query")
    let u : Except (List String) String := match lookupField fs "unit" with
      | none => .ok ""
      | some (.str s) => .ok s
      | some _ => .error [loc ++ ".unit"]
    let a : Except (List String) (Option AlertConfig) := match lookupField fs "alert" with
      | none => .ok none
      | some .null => .ok none
      | some v => (vAlertConfig (loc ++ ".alert") v).map some
    match accumE (accumE t q) (accumE u a) with
    | .ok ((t, q), (u, a)) => .ok ⟨t, q, u, a⟩
    | .error e => .error e
  | _ => .error [loc]

def vMetricList (loc : String) (i : Nat) : List Json → Except (List String) (List Metric)
  | [] => .ok []
  | j :: rest =>
    match accumE (vMetric (loc ++ "." ++ toString i) j) (vMetricList loc (i + 1) rest) with
    | .ok (m, ms) => .ok (m :: ms)
    | .error e => .error e

/-- `Dashboard`: required `name`, `refresh_interval` defaulting to 30 and
constrained `gt=0`, required `metrics` list. -/
def vDashboard (loc : String) (j : Json) : Except (List String) Dashboard :=
  match j with
  | .obj fs =>
    let n := vRequiredStr (loc ++ ".name") (lookupField fs "name")
    let ri : Except (List String) Int := match lookupField fs "refresh_interval" with
      | none => .ok 30
      | some v =>
        match parseIntJson v with
        | some k => if 0 < k then .ok k else .error [loc ++ ".refresh_interval"]
        | none => .error [loc ++ ".refresh_interval"]
    let ms : Except (List String) (List Metric) := match lookupField fs "metrics" with
      | some (.arr xs) => vMetricList (loc ++ ".metrics") 0 xs
      | _ => .error [loc ++ ".metrics"]
    match accumE n (accumE ri ms) with
    | .ok (n, ri, ms) => .ok ⟨n, ri, ms⟩
    | .error e => .error e
  | _ => .error [loc]

def vDashboardList (loc : String) (i : Nat) : List Json → Except (List String) (List Dashboard)
  | [] => .ok []
  | j :: rest =>
    match accumE (vDashboard (loc ++ "." ++ toString i) j) (vDashboardList loc (i + 1) rest) with
    | .ok (d, ds) => .ok (d :: ds)
    | .error e => .error e

def settingsFields : List String :=
  ["prometheus_url", "pushover_token", "pushover_user", "dashboards"]

/-- pydantic-settings source priority for one field: the init kwarg
(`YampConfig(**config_data)`) when present, otherwise the environment
variable `env_prefix + upper-cased field name` (`YAMP_...`).  Model
notes: matching is by the exact upper-cased name (the default
case-insensitive matching is not exercised by any claim), and an
environment value enters as a raw string (pydantic-settings' JSON
decoding of complex env values, e.g. for `dashboards`, is not modelled —
no claim sets that variable). -/
def upperChar (c : Char) : Char :=
  if 97 ≤ c.toNat && c.toNat ≤ 122 then Char.ofNat (c.toNat - 32) else c

def upperAscii (s : String) : String :=
  String.mk (s.data.map upperChar)

def sourceValue (init : List (String × Json)) (env : String → Option String)
    (field : String) : Option Json :=
  match lookupField init field with
  | some v => some v
  | none => (env ("YAMP_" ++ upperAscii field)).map Json.str

/-- `YampConfig(**config_data)` under pydantic-settings: validates the
four fields from the merged sources; unknown init kwargs are rejected
(pydantic-settings defaults to `extra="forbid"`). -/
def yampConfigValidate (init : List (String × Json)) (env : String → Option String) :
    Except (List String) YampConfig :=
  let extras := (init.filter (fun p => !(settingsFields.contains p.1))).map (fun p => p.1)
  let purl := vUrl "prometheus_url" (sourceValue init env "prometheus_url")
  let tok := vRequiredStr "pushover_token" (sourceValue init env "pushover_token")
  let usr := vRequiredStr "pushover_user" (sourceValue init env "pushover_user")
  let ds : Except (List String) (List Dashboard) :=
    match sourceValue init env "dashboards" with
    | some (.arr xs) => vDashboardList "dashboards" 0 xs
    | _ => .error ["dashboards"]
  match accumE (accumE purl tok) (accumE usr ds) with
  | .ok ((p, t), (u, d)) => if extras.isEmpty then .ok ⟨p, t, u, d⟩ else .error extras
  | .error e => .error (extras ++ e)

/-- What the filesystem holds at a path: a document that parses to a JSON
value, or one whose parse fails with a `yaml.YAMLError` diagnostic. -/
inductive FileContent where
  | yamlGood (doc : Json)
  | yamlBad (diag : String)

/-- The three `ConfigError` cases of `load_config`, tagged by which raise
site produced the message. -/
inductive ConfigErrorKind where
  | notFound (path : String)
  | parseError (diag : String)
  | validationError (locs : List String)
deriving DecidableEq

/-- The `ConfigError` message of each kind, as the source formats it (the
wrapped pydantic diagnostic is modelled by the list of offending field
locations). -/
def ConfigErrorKind.message : ConfigErrorKind → String
  | .notFound path => "Config file not found at " ++ path
  | .parseError diag => "Error parsing YAML file: " ++ diag
  | .validationError locs => "Configuration validation error: " ++ String.intercalate ", " locs

/-- A `load_config` failure: a raised `ConfigError`, or a Python
exception that escapes unwrapped (e.g. `TypeError` when the document's
top level is not a mapping, so `**config_data` fails). -/
inductive LoadError where
  | configError (k : ConfigErrorKind)
  | py (e : PyErr)
deriving DecidableEq

/-- The default `config/yamp.yaml` location relative to the project root
(`Path(__file__).parent.parent.parent / "config" / "yamp.yaml"`). -/
def yampDefaultConfigPath : String := "<project_root>/config/yamp.yaml"

/-- `get_config_path`: the walrus `if env_path := os.getenv(...)` treats
an empty string as falsy, so only a nonempty override wins. -/
def get_config_path (env : String → Option String) : String :=
  match env "YAMP_CONFIG_PATH" with
  | some p => if p = "" then yampDefaultConfigPath else p
  | none => yampDefaultConfigPath

/-- `load_config`: existence check, then parse, then validation; the
filesystem is abstracted by `fs`, the process environment by `env`. -/
def load_config (fs : String → Option FileContent) (env : String → Option String) :
    Except LoadError YampConfig :=
  let path := get_config_path env
  match fs path with
  | none => .error (.configError (.notFound path))
  | some (.yamlBad diag) => .error (.configError (.parseError diag))
  | some (.yamlGood doc) =>
    match doc with
    | .obj init =>
      match yampConfigValidate init env with
      | .ok c => .ok c
      | .error locs => .error (.configError (.validationError locs))
    | _ => .error (.py (.typeError "argument after ** must be a mapping"))

/-! ## Concrete scenario material shared by the theorems -/

/-- A transport behavior that returns the same outcome for every query. -/
def constNet (r : NetResult) : String → NetResult := fun _ => r

/-- A freshly bound client, as after `async with PrometheusClient(...)`. -/
def openBoundClient : PrometheusClient :=
  (PrometheusClient.make "http://localhost:9090").aenter

/-- An environment holding exactly the given variables. -/
def envOf (l : List (String × String)) : String → Option String :=
  fun k => (l.find? (fun p => p.1 = k)).map (fun p => p.2)

/-- A filesystem holding exactly one file. -/
def fsSingle (p : String) (f : FileContent) : String → Option FileContent :=
  fun q => if q = p then some f else none

/-! ## Helper lemmas -/

/-- What one loop iteration contributes when it does not abort. -/
def itemEmit (item : Json) : Option (Json × Rat) :=
  match transformItem item with
  | .ok o => o
  | .error _ => none

theorem transformList_ok_eq_filterMap (items : List Json) (l : List (Json × Rat))
    (h : transformList items = .ok l) : l = items.filterMap itemEmit := by
  induction items generalizing l with
  | nil =>
    simp only [transformList] at h
    cases h
    rfl
  | cons item rest ih =>
    simp only [transformList] at h
    cases htr : transformItem item with
    | error e => rw [htr] at h; exact absurd h (by simp)
    | ok o =>
      rw [htr] at h
      cases hrest : transformList rest with
      | error e => rw [hrest] at h; exact absurd h (by simp)
      | ok tail =>
        rw [hrest] at h
        cases o with
        | none =>
          cases h
          simp [List.filterMap, itemEmit, htr, ih tail hrest]
        | some r =>
          cases h
          simp [List.filterMap, itemEmit, htr, ih tail hrest]

/-- Scalar JSON values: the ones `float()` maps to a number or a caught
`ValueError`. -/
def scalarish : Json → Bool
  | .str _ => true
  | .num _ => true
  | .bool _ => true
  | _ => false

/-- A `value` field shape whose processing can only succeed or raise one
of the two caught exception kinds. -/
def goodValueField : Option Json → Bool
  | none => true
  | some (.arr vs) =>
    match vs.get? 1 with
    | none => true
    | some v => scalarish v
  | some (.str _) => true
  | some _ => false

/-- A result entry whose one loop iteration cannot raise an uncaught
exception: a dict whose `value` field, when present, is an array with a
scalar second element (or too short), or a string. -/
def goodItem : Json → Bool
  | .obj fs => goodValueField (lookupField fs "value")
  | _ => false

theorem transformItem_ok_of_goodItem (item : Json) (h : goodItem item = true) :
    ∃ o, transformItem item = .ok o := by
  cases item with
  | obj fs =>
    simp only [goodItem] at h
    cases hv : lookupField fs "value" with
    | none =>
      refine ⟨some ((lookupField fs "metric").getD (Json.obj []), mkRat 0 1), ?_⟩
      simp only [transformItem, pyGet, hv, Option.getD,
        show pyIndexNat (Json.arr [Json.num 0, Json.str "0"]) 1 = Except.ok (Json.str "0")
          from rfl,
        show pyFloat (Json.str "0") = Except.ok (mkRat 0 1) from rfl]
    | some v =>
      rw [hv] at h
      cases v with
      | arr vs =>
        simp only [goodValueField] at h
        cases hx : vs.get? 1 with
        | none =>
          exact ⟨none, by simp only [transformItem, pyGet, hv, Option.getD, pyIndexNat, hx]⟩
        | some x =>
          rw [hx] at h
          cases x with
          | str s =>
            cases hp : parseDecimal s with
            | none =>
              exact ⟨none, by
                simp only [transformItem, pyGet, hv, Option.getD, pyIndexNat, hx, pyFloat, hp]⟩
            | some q =>
              refine ⟨some ((lookupField fs "metric").getD (Json.obj []), q), ?_⟩
              simp only [transformItem, pyGet, hv, Option.getD, pyIndexNat, hx, pyFloat, hp]
          | num q =>
            exact ⟨some ((lookupField fs "metric").getD (Json.obj []), q),
              by simp only [transformItem, pyGet, hv, Option.getD, pyIndexNat, hx, pyFloat]⟩
          | bool b =>
            exact ⟨some ((lookupField fs "metric").getD (Json.obj []),
                if b then mkRat 1 1 else mkRat 0 1),
              by simp only [transformItem, pyGet, hv, Option.getD, pyIndexNat, hx, pyFloat]⟩
          | null => simp [scalarish] at h
          | arr _ => simp [scalarish] at h
          | obj _ => simp [scalarish] at h
      | str s =>
        cases hx : s.data.get? 1 with
        | none =>
          exact ⟨none, by simp only [transformItem, pyGet, hv, Option.getD, pyIndexNat, hx]⟩
        | some c =>
          cases hp : parseDecimal (String.mk [c]) with
          | none =>
            exact ⟨none, by
              simp only [transformItem, pyGet, hv, Option.getD, pyIndexNat, hx, pyFloat, hp]⟩
          | some q =>
            refine ⟨some ((lookupField fs "metric").getD (Json.obj []), q), ?_⟩
            simp only [transformItem, pyGet, hv, Option.getD, pyIndexNat, hx, pyFloat, hp]
      | null => simp [goodValueField] at h
      | bool _ => simp [goodValueField] at h
      | num _ => simp [goodValueField] at h
      | obj _ => simp [goodValueField] at h
  | null => simp [goodItem] at h
  | bool _ => simp [goodItem] at h
  | num _ => simp [goodItem] at h
  | str _ => simp [goodItem] at h
  | arr _ => simp [goodItem] at h

theorem transformList_ok_of_good (items : List Json)
    (h : ∀ item ∈ items, goodItem item = true) :
    ∃ l, transformList items = .ok l := by
  induction items with
  | nil => exact ⟨[], rfl⟩
  | cons item rest ih =>
    obtain ⟨o, ho⟩ := transformItem_ok_of_goodItem item (h item (by simp))
    obtain ⟨tail, htail⟩ := ih (fun x hx => h x (by simp [hx]))
    cases o with
    | none => exact ⟨tail, by simp [transformList, ho, htail]⟩
    | some r => exact ⟨r :: tail, by simp [transformList, ho, htail]⟩

theorem statusNotSuccess_of_ne {st : Json} (h : st ≠ Json.str "success") :
    statusNotSuccess st = true := by
  cases st with
  | str s =>
    simp only [statusNotSuccess, decide_eq_true_eq, ne_eq]
    intro hs
    exact h (by rw [hs])
  | null => rfl
  | bool _ => rfl
  | num _ => rfl
  | arr _ => rfl
  | obj _ => rfl

/-- The one-entry success body of the spec's normalization example. -/
def exampleResultItem : Json :=
  Json.obj [("metric", Json.obj [("instance", Json.str "lxc-01")]),
    ("value", Json.arr [Json.num 0, Json.str "0.85"])]

def exampleSuccessBody : Json :=
  Json.obj [("status", Json.str "success"),
    ("data", Json.obj [("resultType", Json.str "vector"),
      ("result", Json.arr [exampleResultItem])])]

/-! ## Claim theorems -/

/-- C7: for every query string and every transport behavior, calling
`fetch_metric` on an Unbound client (`_client = None`) fails with the
`ClientNotInitialized` error; the result does not depend on the
transport argument at all, so no network call is issued — the check is
decided before the request is constructed. -/
theorem fetch_metric_unbound_clientNotInit (c : PrometheusClient)
    (h : c._client = none) (query : String) (net : String → NetResult) :
    fetch_metric c query net = .error .clientNotInit := by
  unfold fetch_metric
  rw [h]

theorem fetch_metric_unbound_clientNotInit_witness :
    (PrometheusClient.make "http://localhost:9090")._client = none ∧
      fetch_metric (PrometheusClient.make "http://localhost:9090") "up"
        (constNet (.response 200 (Json.obj []))) = .error .clientNotInit :=
  ⟨rfl, fetch_metric_unbound_clientNotInit _ rfl "up" _⟩

/-- C4 counterexample: after scoped acquisition enters and exits,
`_client` is still assigned (the closed client, not `None`), and a
subsequent `fetch_metric` fails with the closed-transport `RuntimeError`
— not with `ClientNotInitialized` as the claim states. -/
theorem fetch_after_aexit_not_clientNotInit_cex :
    (openBoundClient.aexit)._client = some { is_closed := true } ∧
    fetch_metric openBoundClient.aexit "up" (constNet (.response 200 exampleSuccessBody)) =
      .error (.py (.runtimeError "Cannot send a request, as the client has been closed.")) ∧
    FetchError.py (.runtimeError "Cannot send a request, as the client has been closed.") ≠
      FetchError.clientNotInit :=
  ⟨rfl, rfl, by decide⟩

/-- C4 amended: scoped-acquisition exit closes the underlying HTTP
client but leaves the internal `_client` reference assigned; for every
client instance, calling `fetch_metric` after the scoped acquisition has
exited passes the initialization check and fails with the
closed-transport `RuntimeError`, never with `ClientNotInitialized`. -/
theorem aexit_closes_but_keeps_reference (c : PrometheusClient) (query : String)
    (net : String → NetResult) :
    (c.aenter.aexit)._client = some { is_closed := true } ∧
    fetch_metric c.aenter.aexit query net =
      .error (.py (.runtimeError "Cannot send a request, as the client has been closed.")) ∧
    fetch_metric c.aenter.aexit query net ≠ .error .clientNotInit := by
  have h2 : fetch_metric c.aenter.aexit query net =
      .error (.py (.runtimeError "Cannot send a request, as the client has been closed.")) := rfl
  refine ⟨rfl, h2, ?_⟩
  rw [h2]
  simp

theorem aexit_closes_but_keeps_reference_witness :
    ((PrometheusClient.make "http://localhost:9090").aenter.aexit)._client =
      some { is_closed := true } :=
  (aexit_closes_but_keeps_reference (PrometheusClient.make "http://localhost:9090") "up"
    (constNet (.requestError "boom"))).1

/-- C10: for every 2xx response whose JSON object body lacks a
top-level `"status"` key, `fetch_metric` fails with the uncaught Python
`KeyError` — a failure that is none of the client's own wrapped error
kinds (`ApiError`, `ConnectionError`, `HttpStatusError`). -/
theorem fetch_metric_missing_status_keyError (c : PrometheusClient) (hc : HttpxClient)
    (query : String) (net : String → NetResult) (status : Nat)
    (fields : List (String × Json))
    (h1 : c._client = some hc) (h2 : hc.is_closed = false)
    (h3 : net query = .response status (.obj fields))
    (h4 : ¬(status < 200 ∨ 300 ≤ status))
    (h5 : lookupField fields "status" = none) :
    fetch_metric c query net = .error (.py (.keyError "status")) ∧
    (∀ m, FetchError.py (.keyError "status") ≠ .apiError m) ∧
    (∀ m, FetchError.py (.keyError "status") ≠ .connectionError m) ∧
    (∀ n, FetchError.py (.keyError "status") ≠ .httpStatusError n) := by
  refine ⟨?_, ?_, ?_, ?_⟩
  · obtain ⟨b⟩ := hc
    cases h2
    simp [fetch_metric, h1, h3, h4, pySubscrStr, h5]
  · intro m h
    exact FetchError.noConfusion h
  · intro m h
    exact FetchError.noConfusion h
  · intro n h
    exact FetchError.noConfusion h

theorem fetch_metric_missing_status_keyError_witness :
    fetch_metric openBoundClient "up"
        (constNet (.response 200 (Json.obj [("data", Json.obj [])]))) =
      .error (.py (.keyError "status")) :=
  (fetch_metric_missing_status_keyError openBoundClient ⟨false⟩ "up"
    (constNet (.response 200 (Json.obj [("data", Json.obj [])]))) 200
    [("data", Json.obj [])] rfl rfl rfl (by decide) rfl).1

/-- C8: for every 2xx response whose JSON object body carries a
top-level `status` different from the literal string `"success"`,
`fetch_metric` fails with `ApiError`; its message is built from the
body's own `error` string when that field holds a string, and from the
fixed placeholder `"Unknown Prometheus API error"` when the field is
absent, in both cases appearing verbatim in the
`PrometheusClientError` message. -/
theorem fetch_metric_api_error_message (c : PrometheusClient) (hc : HttpxClient)
    (query : String) (net : String → NetResult) (status : Nat)
    (fields : List (String × Json)) (st : Json)
    (h1 : c._client = some hc) (h2 : hc.is_closed = false)
    (h3 : net query = .response status (.obj fields))
    (h4 : ¬(status < 200 ∨ 300 ≤ status))
    (h5 : lookupField fields "status" = some st)
    (h6 : st ≠ Json.str "success") :
    fetch_metric c query net = .error (.apiError (pyStr ((lookupField fields "error").getD
      (Json.str "Unknown Prometheus API error")))) ∧
    (∀ s, lookupField fields "error" = some (Json.str s) →
      pyStr ((lookupField fields "error").getD (Json.str "Unknown Prometheus API error")) = s) ∧
    (lookupField fields "error" = none →
      pyStr ((lookupField fields "error").getD (Json.str "Unknown Prometheus API error")) =
        "Unknown Prometheus API error") ∧
    (∀ m, (FetchError.apiError m).message = "Prometheus API error: " ++ m) := by
  refine ⟨?_, ?_, ?_, fun m => rfl⟩
  · obtain ⟨b⟩ := hc
    cases h2
    simp [fetch_metric, h1, h3, h4, pySubscrStr, h5, statusNotSuccess_of_ne h6, pyGet]
  · intro s hs
    rw [hs]
    rfl
  · intro hnone
    rw [hnone]
    rfl

theorem fetch_metric_api_error_message_witness :
    fetch_metric openBoundClient "up" (constNet (.response 200 (Json.obj
        [("status", Json.str "error"), ("errorType", Json.str "bad_data"),
         ("error", Json.str "test error")]))) = .error (.apiError "test error") ∧
    (FetchError.apiError "test error").message = "Prometheus API error: test error" := by
  have h := fetch_metric_api_error_message openBoundClient ⟨false⟩ "up"
    (constNet (.response 200 (Json.obj [("status", Json.str "error"),
      ("errorType", Json.str "bad_data"), ("error", Json.str "test error")]))) 200
    [("status", Json.str "error"), ("errorType", Json.str "bad_data"),
      ("error", Json.str "test error")] (Json.str "error") rfl rfl rfl (by decide) rfl
    (by simp)
  exact ⟨h.1, h.2.2.2 "test error"⟩

/-- C9: whenever normalization completes, the output list is exactly the
order-preserving `filterMap` of the per-entry transformation over the
input result array; concretely, for the single-entry success response
with labels `{instance: "lxc-01"}` and value array `[0, "0.85"]`,
`fetch_metric` returns exactly one entry with those labels and the value
0.85 (= 17/20). -/
theorem fetch_metric_order_preserving :
    (∀ (items : List Json) (l : List (Json × Rat)),
      transformList items = .ok l → l = items.filterMap itemEmit) ∧
    fetch_metric openBoundClient "up" (constNet (.response 200 exampleSuccessBody)) =
      .ok [(Json.obj [("instance", Json.str "lxc-01")], mkRat 17 20)] :=
  ⟨transformList_ok_eq_filterMap, rfl⟩

theorem fetch_metric_order_preserving_witness :
    [(Json.obj [("instance", Json.str "lxc-01")], mkRat 17 20)] =
      [exampleResultItem].filterMap itemEmit :=
  fetch_metric_order_preserving.1 [exampleResultItem]
    [(Json.obj [("instance", Json.str "lxc-01")], mkRat 17 20)] rfl

/-- C2 counterexample: an entry whose `value` array is structurally
missing (no `value` key at all) is NOT skipped — `item.get("value", [0,
"0"])` substitutes the default, so the entry is emitted with value 0.0,
contradicting the claim that it emits no output pair. -/
theorem transform_data_missing_value_emits_cex :
    transform_data (Json.obj [("data", Json.obj [("result",
        Json.arr [Json.obj [("metric", Json.obj [("instance", Json.str "lxc-01")])]])])]) =
      .ok [(Json.obj [("instance", Json.str "lxc-01")], mkRat 0 1)] ∧
    (Except.ok [(Json.obj [("instance", Json.str "lxc-01")], mkRat 0 1)] :
        Except PyErr (List (Json × Rat))) ≠ .ok [] := by
  refine ⟨rfl, ?_⟩
  intro h
  simp at h

/-- C2 amended: an entry whose `value` field is present as an array with
fewer than two elements is skipped (caught `IndexError`), and
normalization continues; but an entry whose `value` field is absent
entirely is not skipped — the default `[0, "0"]` makes it emit its
labels with value 0.0. -/
theorem transformItem_short_skipped_missing_defaulted (fields : List (String × Json))
    (vs : List Json) :
    (lookupField fields "value" = some (.arr vs) → vs.get? 1 = none →
      transformItem (.obj fields) = .ok none) ∧
    (lookupField fields "value" = none →
      transformItem (.obj fields) =
        .ok (some ((lookupField fields "metric").getD (Json.obj []), mkRat 0 1))) := by
  constructor
  · intro hv hx
    simp only [transformItem, pyGet, hv, Option.getD, pyIndexNat, hx]
  · intro hv
    simp only [transformItem, pyGet, hv, Option.getD,
      show pyIndexNat (Json.arr [Json.num 0, Json.str "0"]) 1 = Except.ok (Json.str "0")
        from rfl,
      show pyFloat (Json.str "0") = Except.ok (mkRat 0 1) from rfl]

theorem transformItem_short_skipped_missing_defaulted_witness :
    transformItem (Json.obj [("metric", Json.obj []), ("value", Json.arr [Json.num 0])]) =
      .ok none ∧
    transformItem (Json.obj [("metric", Json.obj [("instance", Json.str "a")])]) =
      .ok (some (Json.obj [("instance", Json.str "a")], mkRat 0 1)) :=
  ⟨(transformItem_short_skipped_missing_defaulted
      [("metric", Json.obj []), ("value", Json.arr [Json.num 0])] [Json.num 0]).1 rfl rfl,
    (transformItem_short_skipped_missing_defaulted
      [("metric", Json.obj [("instance", Json.str "a")])] []).2 rfl⟩

/-- C3 counterexample: normalization catches only `ValueError` and
`IndexError`; a result entry whose `value` field is a bare number makes
the subscript `[1]` raise `TypeError`, which aborts the whole fetch
instead of dropping the entry — `fetch_metric` does not return a list
for this API-success body. -/
theorem fetch_metric_normalization_raises_cex :
    fetch_metric openBoundClient "up" (constNet (.response 200 (Json.obj
        [("status", Json.str "success"),
         ("data", Json.obj [("result", Json.arr
           [Json.obj [("metric", Json.obj []), ("value", Json.num 5)]])])]))) =
      .error (.py (.typeError "object is not subscriptable")) ∧
    ∀ l : List (Json × Rat),
      (Except.error (FetchError.py (.typeError "object is not subscriptable")) :
        Except FetchError (List (Json × Rat))) ≠ .ok l := by
  refine ⟨rfl, ?_⟩
  intro l h
  exact Except.noConfusion h

/-- C3 amended: normalization never raises — and `fetch_metric` returns
a (possibly shorter) list, dropping malformed entries with only a
logged warning — for every API-success body whose result entries are
dicts whose `value` field, when present, is a string or an array that is
short or has a scalar second element; entries outside that shape (e.g. a
numeric `value`) raise exceptions that the per-entry handler does not
catch. -/
theorem fetch_metric_good_shape_never_raises (c : PrometheusClient) (hc : HttpxClient)
    (query : String) (net : String → NetResult) (status : Nat) (body d r : Json)
    (items : List Json)
    (h1 : c._client = some hc) (h2 : hc.is_closed = false)
    (h3 : net query = .response status body)
    (h4 : ¬(status < 200 ∨ 300 ≤ status))
    (h5 : pySubscrStr body "status" = .ok (Json.str "success"))
    (h6 : pyGet body "data" (Json.obj []) = .ok d)
    (h7 : pyGet d "result" (Json.arr []) = .ok r)
    (h8 : pyIter r = .ok items)
    (hgood : ∀ item ∈ items, goodItem item = true) :
    ∃ l, fetch_metric c query net = .ok l := by
  obtain ⟨l, hl⟩ := transformList_ok_of_good items hgood
  refine ⟨l, ?_⟩
  obtain ⟨b⟩ := hc
  cases h2
  simp [fetch_metric, h1, h3, h4, h5, transform_data, h6, h7, h8, hl, statusNotSuccess]

theorem fetch_metric_good_shape_never_raises_witness :
    ∃ l, fetch_metric openBoundClient "up" (constNet (.response 200 (Json.obj
        [("status", Json.str "success"),
         ("data", Json.obj [("result", Json.arr
           [Json.obj [("metric", Json.obj [("instance", Json.str "good")]),
              ("value", Json.arr [Json.num 0, Json.str "1.23"])],
            Json.obj [("metric", Json.obj [("instance", Json.str "bad")]),
              ("value", Json.arr [Json.num 0, Json.str "not-a-float"])],
            Json.obj [("metric", Json.obj [("instance", Json.str "no-value")]),
              ("value", Json.arr [Json.num 0])]])])]))) = .ok l :=
  fetch_metric_good_shape_never_raises openBoundClient ⟨false⟩ "up" _ 200 _ _ _ _
    rfl rfl rfl (by decide) rfl rfl rfl rfl (by decide)

theorem accumE_ok {α β : Type} {a : Except (List String) α} {b : Except (List String) β}
    {x : α × β} (h : accumE a b = .ok x) : a = .ok x.1 ∧ b = .ok x.2 := by
  cases a with
  | error e => cases b <;> simp [accumE] at h
  | ok va =>
    cases b with
    | error f => simp [accumE] at h
    | ok vb =>
      simp only [accumE] at h
      cases h
      exact ⟨rfl, rfl⟩

theorem vUrl_ok_valid {loc : String} {o : Option Json} {s : String}
    (h : vUrl loc o = .ok s) : isValidHttpUrl s = true := by
  unfold vUrl at h
  split at h
  · rename_i s'
    split at h
    · rename_i hu
      cases h
      exact hu
    · cases h
  · cases h

theorem yampConfigValidate_ok_url {init : List (String × Json)}
    {env : String → Option String} {c : YampConfig}
    (h : yampConfigValidate init env = .ok c) : isValidHttpUrl c.prometheus_url = true := by
  simp only [yampConfigValidate] at h
  cases hm : accumE
      (accumE (vUrl "prometheus_url" (sourceValue init env "prometheus_url"))
        (vRequiredStr "pushover_token" (sourceValue init env "pushover_token")))
      (accumE (vRequiredStr "pushover_user" (sourceValue init env "pushover_user"))
        (match sourceValue init env "dashboards" with
          | some (.arr xs) => vDashboardList "dashboards" 0 xs
          | _ => .error ["dashboards"])) with
  | error e =>
    rw [hm] at h
    simp at h
  | ok x =>
    rw [hm] at h
    obtain ⟨⟨p, t⟩, u, d⟩ := x
    replace h : (if (List.map (fun p => p.1)
          (List.filter (fun p => !(settingsFields.contains p.1)) init)).isEmpty = true then
        Except.ok (⟨p, t, u, d⟩ : YampConfig)
      else
        Except.error (List.map (fun p => p.1)
          (List.filter (fun p => !(settingsFields.contains p.1)) init))) = Except.ok c := h
    by_cases he : (List.map (fun p => p.1)
        (List.filter (fun p => !(settingsFields.contains p.1)) init)).isEmpty = true
    · rw [if_pos he] at h
      cases h
      exact vUrl_ok_valid (accumE_ok (accumE_ok hm).1).1
    · rw [if_neg he] at h
      exact Except.noConfusion h

/-- C6: for every environment and every filesystem holding no file at
the resolved path, `load_config` fails with the `ConfigNotFound` error
kind, and never with the parse or validation kinds; the existence check
is decided before any read, parse or validation is attempted (the model
never consults the file content when the path is absent). -/
theorem load_config_missing_file_notFound (fs : String → Option FileContent)
    (env : String → Option String) (h : fs (get_config_path env) = none) :
    load_config fs env = .error (.configError (.notFound (get_config_path env))) ∧
    (∀ diag, load_config fs env ≠ .error (.configError (.parseError diag))) ∧
    (∀ locs, load_config fs env ≠ .error (.configError (.validationError locs))) := by
  have h1 : load_config fs env = .error (.configError (.notFound (get_config_path env))) := by
    simp only [load_config, h]
  refine ⟨h1, ?_, ?_⟩
  · intro diag hx
    rw [h1] at hx
    simp at hx
  · intro locs hx
    rw [h1] at hx
    simp at hx

theorem load_config_missing_file_notFound_witness :
    load_config (fun _ => none) (fun _ => none) =
      .error (.configError (.notFound yampDefaultConfigPath)) :=
  (load_config_missing_file_notFound (fun _ => none) (fun _ => none) rfl).1

/-- C5 counterexample: with both secret environment variables set to the
empty string, `load_config` returns a configuration whose credential
strings are empty — the claimed non-emptiness invariant is not enforced
(pydantic `str` fields accept `""`). -/
theorem load_config_empty_secrets_cex :
    load_config
      (fsSingle "/tmp/yamp.yaml" (.yamlGood (Json.obj
        [("prometheus_url", Json.str "http://localhost:9090"),
         ("dashboards", Json.arr [])])))
      (envOf [("YAMP_CONFIG_PATH", "/tmp/yamp.yaml"), ("YAMP_PUSHOVER_TOKEN", ""),
        ("YAMP_PUSHOVER_USER", "")]) =
      .ok ⟨"http://localhost:9090", "", "", []⟩ ∧
    (YampConfig.mk "http://localhost:9090" "" "" []).pushover_token = "" ∧
    (YampConfig.mk "http://localhost:9090" "" "" []).pushover_user = "" :=
  ⟨rfl, rfl, rfl⟩

/-- C5 amended: every configuration `load_config` returns satisfies the
enforced part of the data-model invariant — its base address passed the
absolute http(s) URL validation — and both credential fields were
supplied as strings by file or environment (validation is
all-or-nothing); but the credential strings may be empty, since
non-emptiness is not checked. -/
theorem load_config_ok_url_invariant (fs : String → Option FileContent)
    (env : String → Option String) (c : YampConfig)
    (h : load_config fs env = .ok c) : isValidHttpUrl c.prometheus_url = true := by
  simp only [load_config] at h
  split at h
  · exact Except.noConfusion h
  · exact Except.noConfusion h
  · split at h
    · split at h
      · rename_i hv
        cases h
        exact yampConfigValidate_ok_url hv
      · exact Except.noConfusion h
    · exact Except.noConfusion h

theorem load_config_ok_url_invariant_witness :
    isValidHttpUrl (YampConfig.mk "http://localhost:9090" "token123" "user456" []).prometheus_url
      = true :=
  load_config_ok_url_invariant
    (fsSingle "/tmp/yamp.yaml" (.yamlGood (Json.obj
      [("prometheus_url", Json.str "http://localhost:9090"), ("dashboards", Json.arr [])])))
    (envOf [("YAMP_CONFIG_PATH", "/tmp/yamp.yaml"), ("YAMP_PUSHOVER_TOKEN", "token123"),
      ("YAMP_PUSHOVER_USER", "user456")])
    ⟨"http://localhost:9090", "token123", "user456", []⟩ rfl

/-- C1 counterexample: the file supplies `pushover_token` and
`pushover_user` while both secret environment variables are set to
different values; the returned configuration carries the file's values.
Init kwargs take precedence over the environment in pydantic-settings,
so the environment does not win over file-supplied secret fields. -/
theorem load_config_file_secret_beats_env_cex :
    (envOf [("YAMP_CONFIG_PATH", "/tmp/yamp.yaml"), ("YAMP_PUSHOVER_TOKEN", "token123"),
        ("YAMP_PUSHOVER_USER", "user456")]) "YAMP_PUSHOVER_TOKEN" = some "token123" ∧
    load_config
      (fsSingle "/tmp/yamp.yaml" (.yamlGood (Json.obj
        [("prometheus_url", Json.str "http://localhost:9090"),
         ("pushover_token", Json.str "filetok"), ("pushover_user", Json.str "fileuser"),
         ("dashboards", Json.arr [])])))
      (envOf [("YAMP_CONFIG_PATH", "/tmp/yamp.yaml"), ("YAMP_PUSHOVER_TOKEN", "token123"),
        ("YAMP_PUSHOVER_USER", "user456")]) =
      .ok ⟨"http://localhost:9090", "filetok", "fileuser", []⟩ ∧
    ("filetok" : String) ≠ "token123" :=
  ⟨rfl, rfl, by decide⟩

/-- C1 amended: for every syntactically valid configuration document
whose top level supplies a valid base URL and dashboards (and no
unknown keys), `load_config` returns a configuration whose fields
equal the merged input, where for the two secret fields the environment
variables supply the value only when the file omits it, and
file-supplied values win over the environment when both are present
(pydantic-settings gives init kwargs precedence over environment
variables). -/
theorem load_config_merged_sources (fs : String → Option FileContent)
    (env : String → Option String) (init : List (String × Json)) (purl : String)
    (dxs : List Json) (ds : List Dashboard)
    (hfs : fs (get_config_path env) = some (.yamlGood (.obj init)))
    (hextra : init.filter (fun p => !(settingsFields.contains p.1)) = [])
    (hurl : lookupField init "prometheus_url" = some (.str purl))
    (hvalid : isValidHttpUrl purl = true)
    (hdash : lookupField init "dashboards" = some (.arr dxs))
    (hds : vDashboardList "dashboards" 0 dxs = .ok ds) :
    (∀ tok usr, lookupField init "pushover_token" = none →
      lookupField init "pushover_user" = none →
      env "YAMP_PUSHOVER_TOKEN" = some tok → env "YAMP_PUSHOVER_USER" = some usr →
      load_config fs env = .ok ⟨purl, tok, usr, ds⟩) ∧
    (∀ ftok fusr, lookupField init "pushover_token" = some (.str ftok) →
      lookupField init "pushover_user" = some (.str fusr) →
      load_config fs env = .ok ⟨purl, ftok, fusr, ds⟩) := by
  have hm : (List.map (fun p => p.1)
      (List.filter (fun p => !(settingsFields.contains p.1)) init)) = [] := by
    rw [hextra]
    rfl
  constructor
  · intro tok usr ht hu het heu
    simp [load_config, hfs, yampConfigValidate, sourceValue, hurl, hdash, ht, hu,
      show ("YAMP_" ++ upperAscii "pushover_token") = "YAMP_PUSHOVER_TOKEN" from rfl,
      show ("YAMP_" ++ upperAscii "pushover_user") = "YAMP_PUSHOVER_USER" from rfl,
      het, heu, vUrl, hvalid, vRequiredStr, hds, accumE]
    rw [hm]
    rfl
  · intro ftok fusr ht hu
    simp [load_config, hfs, yampConfigValidate, sourceValue, hurl, hdash, ht, hu,
      vUrl, hvalid, vRequiredStr, hds, accumE]
    rw [hm]
    rfl

theorem load_config_merged_sources_witness :
    load_config
      (fsSingle "/tmp/yamp.yaml" (.yamlGood (Json.obj
        [("prometheus_url", Json.str "http://localhost:9090"),
         ("dashboards", Json.arr [Json.obj [("name", Json.str "Test Dash"),
           ("metrics", Json.arr [Json.obj [("title", Json.str "CPU"),
             ("query", Json.str "node_cpu")]])]])])))
      (envOf [("YAMP_CONFIG_PATH", "/tmp/yamp.yaml"), ("YAMP_PUSHOVER_TOKEN", "token123"),
        ("YAMP_PUSHOVER_USER", "user456")]) =
      .ok ⟨"http://localhost:9090", "token123", "user456",
        [⟨"Test Dash", 30, [⟨"CPU", "node_cpu", "", none⟩]⟩]⟩ ∧
    load_config
      (fsSingle "/tmp/yamp.yaml" (.yamlGood (Json.obj
        [("prometheus_url", Json.str "http://localhost:9090"),
         ("pushover_token", Json.str "filetok"), ("pushover_user", Json.str "fileuser"),
         ("dashboards", Json.arr [])])))
      (envOf [("YAMP_CONFIG_PATH", "/tmp/yamp.yaml"), ("YAMP_PUSHOVER_TOKEN", "token123"),
        ("YAMP_PUSHOVER_USER", "user456")]) =
      .ok ⟨"http://localhost:9090", "filetok", "fileuser", []⟩ :=
  ⟨(load_config_merged_sources
      (fsSingle "/tmp/yamp.yaml" (.yamlGood (Json.obj
        [("prometheus_url", Json.str "http://localhost:9090"),
         ("dashboards", Json.arr [Json.obj [("name", Json.str "Test Dash"),
           ("metrics", Json.arr [Json.obj [("title", Json.str "CPU"),
             ("query", Json.str "node_cpu")]])]])])))
      (envOf [("YAMP_CONFIG_PATH", "/tmp/yamp.yaml"), ("YAMP_PUSHOVER_TOKEN", "token123"),
        ("YAMP_PUSHOVER_USER", "user456")])
      [("prometheus_url", Json.str "http://localhost:9090"),
        ("dashboards", Json.arr [Json.obj [("name", Json.str "Test Dash"),
          ("metrics", Json.arr [Json.obj [("title", Json.str "CPU"),
            ("query", Json.str "node_cpu")]])]])]
      "http://localhost:9090"
      [Json.obj [("name", Json.str "Test Dash"),
        ("metrics", Json.arr [Json.obj [("title", Json.str "CPU"),
          ("query", Json.str "node_cpu")]])]]
      [⟨"Test Dash", 30, [⟨"CPU", "node_cpu", "", none⟩]⟩]
      rfl rfl rfl rfl rfl rfl).1 "token123" "user456" rfl rfl rfl rfl,
    (load_config_merged_sources
      (fsSingle "/tmp/yamp.yaml" (.yamlGood (Json.obj
        [("prometheus_url", Json.str "http://localhost:9090"),
         ("pushover_token", Json.str "filetok"), ("pushover_user", Json.str "fileuser"),
         ("dashboards", Json.arr [])])))
      (envOf [("YAMP_CONFIG_PATH", "/tmp/yamp.yaml"), ("YAMP_PUSHOVER_TOKEN", "token123"),
        ("YAMP_PUSHOVER_USER", "user456")])
      [("prometheus_url", Json.str "http://localhost:9090"),
        ("pushover_token", Json.str "filetok"), ("pushover_user", Json.str "fileuser"),
        ("dashboards", Json.arr [])]
      "http://localhost:9090" [] []
      rfl rfl rfl rfl rfl rfl).2 "filetok" "fileuser" rfl rfl⟩

end Yamp
